import Mathlib

/-!
Verification of the Overlay Assembly Engine of `modules/video_overlay.py`.

The Python module is shallowly embedded: durations and timestamps are exact
rationals (`ℚ`), the external `ffmpeg`/`ffprobe` invocations are represented by
the data they are given (extraction descriptions, filter parameters, argument
lists), and the optimized pipeline of `_apply_overlay_optimized` is a total
function over a failure oracle `fail_at : Stage → Bool` saying which external
stage (if any) fails, mirroring the source's sequential control flow with early
`raise` and its unconditional `finally` cleanup block.
-/

namespace VideoOverlay

/-! ## Timing Resolver (`apply_video_overlay_smart`, lines 73-86) -/

/-- Lines 74-85 of `apply_video_overlay_smart`: resolve the timing mode into
`(actual_start, actual_end)`, then clamp `actual_end` to the main duration. -/
def resolve_window (timing_mode : String) (start_time : ℚ) (end_time : Option ℚ)
    (main_duration overlay_duration : ℚ) : ℚ × ℚ :=
  let p : ℚ × ℚ :=
    if timing_mode = "full_duration" then (0, main_duration)
    else if timing_mode = "overlay_duration" then (start_time, start_time + overlay_duration)
    else
      (start_time, match end_time with
        | some e => e
        | none => main_duration)
  (p.1, min p.2 main_duration)

/-! ## Strategy Selector (lines 91-95) -/

/-- Line 93: `use_optimization = optimize and (overlay_segment_duration < main_duration * 0.8)`. -/
def use_optimization (optimize : Bool) (overlay_segment_duration main_duration : ℚ) : Bool :=
  optimize && decide (overlay_segment_duration < main_duration * (0.8 : ℚ))

/-- Line 95: the optimized branch is taken when `use_optimization` holds and
additionally `actual_start > 0.1 or actual_end < main_duration - 0.1`. -/
def chooses_optimized (optimize : Bool) (actual_start actual_end main_duration : ℚ) : Bool :=
  use_optimization optimize (actual_end - actual_start) main_duration &&
    (decide (actual_start > (0.1 : ℚ)) || decide (actual_end < main_duration - (0.1 : ℚ)))

/-! ## Overlay Compositor: position table, filter, audio, command
(`_apply_overlay_to_segment` lines 241-312; `_apply_overlay_standard` lines 315-390;
the two functions build identical commands from their parameters). -/

/-- The `position_map` dictionary (lines 253-259 and 331-337). -/
def position_table : List (String × String) :=
  [("top_left", "10:10"),
   ("top_right", "main_w-overlay_w-10:10"),
   ("bottom_left", "10:main_h-overlay_h-10"),
   ("bottom_right", "main_w-overlay_w-10:main_h-overlay_h-10"),
   ("center", "(main_w-overlay_w)/2:(main_h-overlay_h)/2")]

/-- Lookup `position_map.get(position, "10:10")` (lines 260 and 338). -/
def resolve_position (position : String) : String :=
  match position_table.lookup position with
  | some v => v
  | none => "10:10"

/-- The parameters interpolated into the `filter_complex` string
(lines 250-267): overlay scale factor, optional chroma key with its two
tolerances, the resolved position expression, and the two endpoints of the
temporal `enable='between(t,start,end)'` gate. -/
structure SegmentFilter where
  scale_factor : ℚ
  remove_green : Bool
  green_similarity : ℚ
  green_blend : ℚ
  overlay_position : String
  gate_start : ℚ
  gate_end : ℚ
deriving Repr, DecidableEq

/-- Build the filter parameters exactly as both compositor functions do from
their arguments: `scale=iw*{size_percent/100}` and the gate on `(start_time, end_time)`. -/
def build_filter (position : String) (size_percent : ℚ) (remove_green : Bool)
    (green_similarity green_blend : ℚ) (start_time end_time : ℚ) : SegmentFilter :=
  { scale_factor := size_percent / 100
    remove_green := remove_green
    green_similarity := green_similarity
    green_blend := green_blend
    overlay_position := resolve_position position
    gate_start := start_time
    gate_end := end_time }

/-- Render of the `filter_complex` f-string (lines 263-267): the chroma key is
`colorkey=0x00FF00:{sim}:{blend}` and the gate is `enable='between(t,s,e)'`.
Only video streams (`[1:v]`, `[0:v]`) appear; there is no audio filter. -/
def render_filter (f : SegmentFilter) : String :=
  let scale := "scale=iw*" ++ toString f.scale_factor ++ ":ih*" ++ toString f.scale_factor
  let tail := "[ovr];[0:v][ovr]overlay=" ++ f.overlay_position ++
    ":enable=\x27between(t," ++ toString f.gate_start ++ "," ++ toString f.gate_end ++ ")\x27"
  if f.remove_green then
    "[1:v]" ++ scale ++ "," ++
      ("colorkey=0x00FF00:" ++ toString f.green_similarity ++ ":" ++ toString f.green_blend) ++ tail
  else
    "[1:v]" ++ scale ++ tail

/-- Audio argument construction (lines 300-304 and 377-381): with
`keep_overlay_audio` the explicit map is omitted; otherwise only the main
input's audio (`-map 0:a?`) is taken. Both re-encode at the fixed 320k bitrate. -/
def audio_args (keep_overlay_audio : Bool) : List String :=
  if keep_overlay_audio then ["-c:a", "aac", "-b:a", "320k"]
  else ["-map", "0:a?", "-c:a", "aac", "-b:a", "320k"]

/-- The `quality_settings` table (lines 270-278 and 346-355). -/
def quality_table : List (String × String × String) :=
  [("ultra_fast", "p4", "23"),
   ("high_quality", "p6", "19"),
   ("maximum_quality", "p7", "17"),
   ("fastest", "p4", "23"),
   ("fast", "p6", "19"),
   ("balanced", "p6", "19")]

/-- Lookup `quality_settings.get(quality_preset, quality_settings["high_quality"])`
(lines 280 and 357). -/
def select_quality (quality_preset : String) : String × String :=
  match quality_table.lookup quality_preset with
  | some v => v
  | none => ("p6", "19")

/-- The encoding command up to (excluding) the audio arguments
(lines 283-298 / 360-375). -/
def encode_video_args (input_path overlay_path : String) (f : SegmentFilter)
    (quality_preset : String) : List String :=
  let sel := select_quality quality_preset
  ["ffmpeg", "-y", "-hwaccel", "cuda", "-hwaccel_output_format", "cuda",
   "-i", input_path, "-i", overlay_path,
   "-filter_complex", render_filter f,
   "-c:v", "h264_nvenc", "-preset", sel.1, "-tune", "hq", "-rc", "vbr",
   "-cq", sel.2, "-profile:v", "high", "-spatial-aq", "1", "-temporal-aq", "1"]

/-- The full encoding command of both compositor functions: video arguments,
then the audio arguments, then the output path (lines 283-306 / 360-383). -/
def encode_cmd (input_path overlay_path output_path : String) (f : SegmentFilter)
    (quality_preset : String) (keep_overlay_audio : Bool) : List String :=
  encode_video_args input_path overlay_path f quality_preset ++
    audio_args keep_overlay_audio ++ [output_path]

/-- Does a character list start with the pattern? -/
def chars_start_with : List Char → List Char → Bool
  | [], _ => true
  | _ :: _, [] => false
  | a :: as, b :: bs => a == b && chars_start_with as bs

/-- Does the pattern occur contiguously in the list? -/
def chars_have_sub (pat : List Char) : List Char → Bool
  | [] => pat.isEmpty
  | c :: t => chars_start_with pat (c :: t) || chars_have_sub pat t

/-- Substring test on strings. -/
def has_sub (s pat : String) : Bool := chars_have_sub pat.toList s.toList

/-- An ffmpeg command references (and could therefore mix in) the overlay
input's audio only if some argument mentions the second input's audio stream
(`1:a`) or an audio-mixing filter (`amix`, `amerge`). -/
def mentions_overlay_audio (cmd : List String) : Bool :=
  cmd.any fun a => has_sub a "amix" || has_sub a "amerge" || has_sub a "1:a"

/-! ## The optimized pipeline (`_apply_overlay_optimized`, lines 113-238) -/

/-- A lossless stream-copy cut performed by the extractor: source path,
optional `-ss` seek, optional `-t` clip duration, destination, `-c copy`. -/
structure Extraction where
  source : String
  seek : Option ℚ
  clip_duration : Option ℚ
  dest : String
  stream_copy : Bool
deriving Repr, DecidableEq

/-- The five fallible external stages of the optimized pipeline, in program
order: the three stream-copy cuts, the GPU composition, the concatenation. -/
inductive Stage
  | before_cut
  | overlay_cut
  | after_cut
  | compose
  | concat
deriving Repr, DecidableEq

/-- Temp file `temp_part_before.mp4` (line 138). -/
def part_before : String := "temp_part_before.mp4"

/-- Temp file `temp_part_overlay_input.mp4` (line 139). -/
def part_overlay_input : String := "temp_part_overlay_input.mp4"

/-- Temp file `temp_part_overlay_output.mp4` (line 140). -/
def part_overlay_output : String := "temp_part_overlay_output.mp4"

/-- Temp file `temp_part_after.mp4` (line 141). -/
def part_after : String := "temp_part_after.mp4"

/-- Manifest file `temp_concat_list.txt` (line 142). -/
def concat_list_file : String := "temp_concat_list.txt"

/-- The list iterated by the `finally` cleanup block (line 231). -/
def temp_files : List String :=
  [part_before, part_overlay_input, part_overlay_output, part_after, concat_list_file]

/-- Observable outcome of one optimized-path run: final outcome (output path or
failing stage), the attempted stream-copy extractions in order, the filter and
audio parameters handed to the compositor (when reached), the manifest list
written for concatenation (when reached), every file the run may have created,
and the files targeted by the `finally` cleanup. -/
structure OptRun where
  outcome : Except Stage String
  extractions : List Extraction
  compose_filter : Option SegmentFilter
  compose_audio : Option (List String)
  manifest : Option (List String)
  files_created : List String
  cleanup_targets : List String

/-- Assemble an `OptRun`; the cleanup targets are always the whole `temp_files`
list because the `finally` block (lines 229-236) runs on every exit path. -/
def opt_finish (outcome : Except Stage String) (exts : List Extraction)
    (cf : Option SegmentFilter) (ca : Option (List String))
    (mani : Option (List String)) (files : List String) : OptRun :=
  { outcome := outcome, extractions := exts, compose_filter := cf, compose_audio := ca,
    manifest := mani, files_created := files, cleanup_targets := temp_files }

/-- Step 5 (lines 208-227): write the manifest, then concatenate with stream
copy into the output path. The manifest and the (possibly partial) output file
exist whether or not the concat command itself fails. -/
def opt_concat_stage (output_path : String) (exts : List Extraction) (cf : SegmentFilter)
    (ca : List String) (files segs : List String) (fail_at : Stage → Bool) : OptRun :=
  if fail_at Stage.concat then
    opt_finish (Except.error Stage.concat) exts (some cf) (some ca) (some segs)
      (files ++ [concat_list_file, output_path])
  else
    opt_finish (Except.ok output_path) exts (some cf) (some ca) (some segs)
      (files ++ [concat_list_file, output_path])

/-- Step 4 (lines 193-206): compose onto the extracted overlay segment, append
`part_overlay_output` to the concat list, then append `part_after` if the after
segment exists (`end_time < main_duration - 0.1`, line 205). -/
def opt_compose_stage (output_path : String) (exts : List Extraction) (cf : SegmentFilter)
    (ca : List String) (files segs : List String) (end_time main_duration : ℚ)
    (fail_at : Stage → Bool) : OptRun :=
  if fail_at Stage.compose then
    opt_finish (Except.error Stage.compose) exts (some cf) (some ca) none
      (files ++ [part_overlay_output])
  else
    opt_concat_stage output_path exts cf ca (files ++ [part_overlay_output])
      ((segs ++ [part_overlay_output]) ++
        (if end_time < main_duration - (0.1 : ℚ) then [part_after] else []))
      fail_at

/-- Step 3 (lines 178-191): extract the after segment when
`end_time < main_duration - 0.1`, with `-ss end_time` and no clip duration. -/
def opt_after_stage (output_path : String) (exts : List Extraction) (cf : SegmentFilter)
    (ca : List String) (files segs : List String) (end_time main_duration : ℚ)
    (after_ext : Extraction) (fail_at : Stage → Bool) : OptRun :=
  if end_time < main_duration - (0.1 : ℚ) ∧ fail_at Stage.after_cut = true then
    opt_finish (Except.error Stage.after_cut) (exts ++ [after_ext]) none none none
      (files ++ [part_after])
  else
    opt_compose_stage output_path
      (exts ++ (if end_time < main_duration - (0.1 : ℚ) then [after_ext] else []))
      cf ca
      (files ++ (if end_time < main_duration - (0.1 : ℚ) then [part_after] else []))
      segs end_time main_duration fail_at

/-- Embedding of `_apply_overlay_optimized` (lines 113-238) over the failure oracle.
Step 1 (lines 147-161): extract the before segment when `start_time > 0.1`
(`-t start_time`, no seek) and append it to the concat list.
Step 2 (lines 163-176): always extract the overlay-source segment
(`-ss start_time -t overlay_segment_duration`); it is never appended to the
concat list. Steps 3-5 are the helper stages above. Composition is applied to
`part_overlay_input` over the segment-local window `(0, overlay_segment_duration)`
(line 197). All cuts are `-c copy` stream copies. -/
def apply_overlay_optimized (main_video_path overlay_video_path output_path : String)
    (start_time end_time main_duration : ℚ) (position : String) (size_percent : ℚ)
    (remove_green : Bool) (green_similarity green_blend : ℚ)
    (keep_overlay_audio : Bool) (quality_preset : String) (fail_at : Stage → Bool) : OptRun :=
  let overlay_segment_duration := end_time - start_time
  let before_ext : Extraction :=
    { source := main_video_path, seek := none, clip_duration := some start_time,
      dest := part_before, stream_copy := true }
  let overlay_ext : Extraction :=
    { source := main_video_path, seek := some start_time,
      clip_duration := some overlay_segment_duration, dest := part_overlay_input,
      stream_copy := true }
  let after_ext : Extraction :=
    { source := main_video_path, seek := some end_time, clip_duration := none,
      dest := part_after, stream_copy := true }
  let cf := build_filter position size_percent remove_green green_similarity green_blend
      0 overlay_segment_duration
  let ca := audio_args keep_overlay_audio
  if start_time > (0.1 : ℚ) ∧ fail_at Stage.before_cut = true then
    opt_finish (Except.error Stage.before_cut) [before_ext] none none none [part_before]
  else
    let exts1 := if start_time > (0.1 : ℚ) then [before_ext] else []
    let files1 := if start_time > (0.1 : ℚ) then [part_before] else []
    if fail_at Stage.overlay_cut then
      opt_finish (Except.error Stage.overlay_cut) (exts1 ++ [overlay_ext]) none none none
        (files1 ++ [part_overlay_input])
    else
      opt_after_stage output_path (exts1 ++ [overlay_ext]) cf ca
        (files1 ++ [part_overlay_input]) files1 end_time main_duration after_ext fail_at

/-- The `finally` cleanup (lines 229-236): each temp file that exists is
unlinked, each unlink wrapped in its own swallowed `try/except`. Given the
files in existence and an oracle saying which deletions succeed, this returns
the files that remain; it is total, so a failed deletion never escalates. -/
def run_cleanup (files : List String) (delete_ok : String → Bool) : List String :=
  files.filter fun f => !(decide (f ∈ temp_files) && delete_ok f)

/-! ## The engine entry points -/

/-- Result of `apply_video_overlay_smart`: either the optimized pipeline's run,
or the standard path's filter parameters and full encoding command. -/
inductive EnginePlan
  | optimizedPlan (run : OptRun)
  | standardPlan (filter : SegmentFilter) (cmd : List String)

/-- Which path was chosen. -/
def plan_is_optimized : EnginePlan → Bool
  | EnginePlan.optimizedPlan _ => true
  | EnginePlan.standardPlan _ _ => false

/-- The extractions attempted by the plan (none on the standard path). -/
def plan_extractions : EnginePlan → List Extraction
  | EnginePlan.optimizedPlan r => r.extractions
  | EnginePlan.standardPlan _ _ => []

/-- The intermediate files the plan may create (none on the standard path). -/
def plan_files : EnginePlan → List String
  | EnginePlan.optimizedPlan r => r.files_created
  | EnginePlan.standardPlan _ _ => []

/-- The compositor filter parameters used by the plan. -/
def plan_filter : EnginePlan → Option SegmentFilter
  | EnginePlan.optimizedPlan r => r.compose_filter
  | EnginePlan.standardPlan f _ => some f

/-- Embedding of `apply_video_overlay_smart` (lines 31-110): resolve the window, then choose
the optimized pipeline (line 95) or the standard full-encode path, which builds
one encoding command gating the overlay on `(actual_start, actual_end)` of the
main asset's own timeline (lines 315-390). Durations come from the prober and
are passed in explicitly. -/
def apply_video_overlay_smart (main_video_path overlay_video_path output_path : String)
    (timing_mode : String) (start_time : ℚ) (end_time : Option ℚ) (position : String)
    (size_percent : ℚ) (remove_green : Bool) (green_similarity green_blend : ℚ)
    (keep_overlay_audio : Bool) (quality_preset : String) (optimize : Bool)
    (main_duration overlay_duration : ℚ) (fail_at : Stage → Bool) : EnginePlan :=
  let w := resolve_window timing_mode start_time end_time main_duration overlay_duration
  if chooses_optimized optimize w.1 w.2 main_duration then
    EnginePlan.optimizedPlan (apply_overlay_optimized main_video_path overlay_video_path
      output_path w.1 w.2 main_duration position size_percent remove_green
      green_similarity green_blend keep_overlay_audio quality_preset fail_at)
  else
    EnginePlan.standardPlan
      (build_filter position size_percent remove_green green_similarity green_blend w.1 w.2)
      (encode_cmd main_video_path overlay_video_path output_path
        (build_filter position size_percent remove_green green_similarity green_blend w.1 w.2)
        quality_preset keep_overlay_audio)

/-- The legacy entry point `apply_video_overlay` (lines 394-436): translate the
old timing mode and delegate to `apply_video_overlay_smart` with `optimize=True`. -/
def apply_video_overlay (main_video_path overlay_video_path output_path : String)
    (timing_mode : String) (start_time : ℚ) (end_time : Option ℚ) (position : String)
    (size_percent : ℚ) (remove_green : Bool) (green_similarity green_blend : ℚ)
    (keep_overlay_audio : Bool) (quality_preset : String)
    (main_duration overlay_duration : ℚ) (fail_at : Stage → Bool) : EnginePlan :=
  let new_timing_mode :=
    if timing_mode = "range" then "custom_time"
    else if timing_mode = "original" then "overlay_duration"
    else "custom_time"
  apply_video_overlay_smart main_video_path overlay_video_path output_path
    new_timing_mode start_time end_time position size_percent remove_green
    green_similarity green_blend keep_overlay_audio quality_preset true
    main_duration overlay_duration fail_at

/-! ## Helper lemmas -/

/-- The entry point picks the optimized plan exactly when `chooses_optimized`
holds of the resolved window. -/
theorem plan_smart_eq_chooses (mv ov out tm : String) (s : ℚ) (eo : Option ℚ) (pos : String)
    (sz : ℚ) (rg : Bool) (gs gb : ℚ) (k : Bool) (q : String) (opt : Bool) (m od : ℚ)
    (fa : Stage → Bool) :
    plan_is_optimized (apply_video_overlay_smart mv ov out tm s eo pos sz rg gs gb k q opt m od fa) =
      chooses_optimized opt (resolve_window tm s eo m od).1 (resolve_window tm s eo m od).2 m := by
  by_cases h :
    chooses_optimized opt (resolve_window tm s eo m od).1 (resolve_window tm s eo m od).2 m = true
  · simp [apply_video_overlay_smart, h, plan_is_optimized]
  · simp [apply_video_overlay_smart, h, plan_is_optimized]

/-- Every optimized-path run attempts at least one extraction, whatever stage
(if any) fails. -/
theorem opt_run_extractions_ne_nil (mv ov out : String) (s e m : ℚ) (pos : String) (sz : ℚ)
    (rg : Bool) (gs gb : ℚ) (k : Bool) (q : String) (fa : Stage → Bool) :
    (apply_overlay_optimized mv ov out s e m pos sz rg gs gb k q fa).extractions ≠ [] := by
  unfold apply_overlay_optimized opt_after_stage opt_compose_stage opt_concat_stage opt_finish
  dsimp only
  split_ifs <;>
    simp only [ne_eq, List.append_eq_nil, List.cons_ne_nil, and_false, false_and,
      not_false_eq_true]

/-- Every optimized-path run creates at least one intermediate file, whatever
stage (if any) fails. -/
theorem opt_run_files_ne_nil (mv ov out : String) (s e m : ℚ) (pos : String) (sz : ℚ)
    (rg : Bool) (gs gb : ℚ) (k : Bool) (q : String) (fa : Stage → Bool) :
    (apply_overlay_optimized mv ov out s e m pos sz rg gs gb k q fa).files_created ≠ [] := by
  unfold apply_overlay_optimized opt_after_stage opt_compose_stage opt_concat_stage opt_finish
  dsimp only
  split_ifs <;>
    simp only [ne_eq, List.append_eq_nil, List.cons_ne_nil, and_false, false_and,
      not_false_eq_true]

/-- The `finally` block targets the whole `temp_files` list on every exit path. -/
theorem opt_run_cleanup_targets (mv ov out : String) (s e m : ℚ) (pos : String) (sz : ℚ)
    (rg : Bool) (gs gb : ℚ) (k : Bool) (q : String) (fa : Stage → Bool) :
    (apply_overlay_optimized mv ov out s e m pos sz rg gs gb k q fa).cleanup_targets =
      temp_files := by
  unfold apply_overlay_optimized opt_after_stage opt_compose_stage opt_concat_stage opt_finish
  dsimp only
  split_ifs <;> rfl

/-- Every file an optimized-path run may create is either the output path or a
registered temp file, on every exit path. -/
theorem opt_run_files_mem (mv ov out : String) (s e m : ℚ) (pos : String) (sz : ℚ)
    (rg : Bool) (gs gb : ℚ) (k : Bool) (q : String) (fa : Stage → Bool) :
    ∀ f ∈ (apply_overlay_optimized mv ov out s e m pos sz rg gs gb k q fa).files_created,
      f = out ∨ f ∈ temp_files := by
  unfold apply_overlay_optimized opt_after_stage opt_compose_stage opt_concat_stage opt_finish
  dsimp only
  split_ifs <;> intro f hf <;> fin_cases hf <;> first | (left; rfl) | (right; decide)

/-- If every deletion succeeds, the cleanup leaves only files outside
`temp_files`: in particular, when everything created is the output or a temp
file, only the output can remain. -/
theorem run_cleanup_spec (files : List String) (delete_ok : String → Bool) (out : String)
    (hfiles : ∀ f ∈ files, f = out ∨ f ∈ temp_files)
    (hdel : ∀ g, delete_ok g = true) :
    ∀ f ∈ run_cleanup files delete_ok, f = out := by
  intro f hf
  have hmem := List.mem_filter.mp hf
  rcases hfiles f hmem.1 with h | h
  · exact h
  · exfalso
    have h2 := hmem.2
    rw [hdel f, Bool.and_true, Bool.not_eq_true'] at h2
    exact absurd h (of_decide_eq_false h2)

/-! ## Claims -/

/-- Claim C3: the resolved window is: FullDuration → `(0, mainDuration)`;
OverlayNativeDuration → `(start, start + overlayDuration)`; CustomRange →
`(rangeStart, rangeEnd)` when an end is provided, else `(rangeStart, mainDuration)`;
and in every mode the resolved end is clamped to at most `mainDuration`. -/
theorem c3_timing_resolver :
    (∀ (s : ℚ) (eo : Option ℚ) (m od : ℚ),
      resolve_window "full_duration" s eo m od = (0, m)) ∧
    (∀ (s : ℚ) (eo : Option ℚ) (m od : ℚ),
      resolve_window "overlay_duration" s eo m od = (s, min (s + od) m)) ∧
    (∀ (s e m od : ℚ), resolve_window "custom_time" s (some e) m od = (s, min e m)) ∧
    (∀ (s m od : ℚ), resolve_window "custom_time" s none m od = (s, m)) ∧
    (∀ (mode : String) (s : ℚ) (eo : Option ℚ) (m od : ℚ),
      (resolve_window mode s eo m od).2 ≤ m) := by
  refine ⟨?_, ?_, ?_, ?_, ?_⟩ <;> intros <;> simp [resolve_window]

/-- Claim C2: the Optimized path is chosen iff the caller allows optimization,
the segment duration is strictly below `0.8 ×` the main duration, and the
window is not effectively the whole timeline; in particular a FullDuration
window (start 0, end = main duration) always yields Standard, and at
`mainDuration = 100` a segment of exactly 80 yields Standard. -/
theorem c2_strategy_selector :
    (∀ (mv ov out tm : String) (s : ℚ) (eo : Option ℚ) (pos : String) (sz : ℚ) (rg : Bool)
       (gs gb : ℚ) (k : Bool) (q : String) (opt : Bool) (m od : ℚ) (fa : Stage → Bool),
      plan_is_optimized
          (apply_video_overlay_smart mv ov out tm s eo pos sz rg gs gb k q opt m od fa) = true ↔
        (opt = true ∧
         (resolve_window tm s eo m od).2 - (resolve_window tm s eo m od).1 < m * (0.8 : ℚ) ∧
         ((resolve_window tm s eo m od).1 > (0.1 : ℚ) ∨
          (resolve_window tm s eo m od).2 < m - (0.1 : ℚ)))) ∧
    (∀ (mv ov out : String) (s : ℚ) (eo : Option ℚ) (pos : String) (sz : ℚ) (rg : Bool)
       (gs gb : ℚ) (k : Bool) (q : String) (opt : Bool) (m od : ℚ) (fa : Stage → Bool),
      plan_is_optimized
          (apply_video_overlay_smart mv ov out "full_duration" s eo pos sz rg gs gb k q opt m od
            fa) = false) ∧
    plan_is_optimized (apply_video_overlay_smart "main.mp4" "ov.mp4" "out.mp4" "custom_time" 0
      (some 80) "top_right" 20 true (0.3 : ℚ) (0.1 : ℚ) false "high_quality" true 100 8
      (fun _ => false)) = false := by
  refine ⟨?_, ?_, ?_⟩
  · intros mv ov out tm s eo pos sz rg gs gb k q opt m od fa
    rw [plan_smart_eq_chooses]
    simp [chooses_optimized, use_optimization, Bool.and_eq_true, Bool.or_eq_true,
      decide_eq_true_eq, and_assoc]
  · intros mv ov out s eo pos sz rg gs gb k q opt m od fa
    rw [plan_smart_eq_chooses]
    have h1 : ¬ ((0 : ℚ) > (0.1 : ℚ)) := by norm_num
    have h2 : ¬ (m < m - (0.1 : ℚ)) := by linarith
    simp [chooses_optimized, use_optimization, resolve_window, min_self, h1, h2,
      decide_eq_false_iff_not]
  · rw [plan_smart_eq_chooses]
    simp [chooses_optimized, use_optimization, resolve_window, decide_eq_false_iff_not]
    norm_num

/-- Claim C1 counterexample: a CustomRange request with `rangeEnd ≤ rangeStart`
(start 10, end 5 on a 60s main video) is not rejected: the engine raises no
validation failure, selects the Optimized path, attempts segment extraction and
creates intermediate files — contradicting the claim that such requests fail
with `InvalidTimingError` before any extraction. -/
theorem c1_counterexample :
    plan_is_optimized (apply_video_overlay_smart "main.mp4" "ov.mp4" "out.mp4" "custom_time" 10
      (some 5) "top_right" 20 true (0.3 : ℚ) (0.1 : ℚ) false "high_quality" true 60 5
      (fun _ => false)) = true ∧
    plan_extractions (apply_video_overlay_smart "main.mp4" "ov.mp4" "out.mp4" "custom_time" 10
      (some 5) "top_right" 20 true (0.3 : ℚ) (0.1 : ℚ) false "high_quality" true 60 5
      (fun _ => false)) ≠ [] ∧
    plan_files (apply_video_overlay_smart "main.mp4" "ov.mp4" "out.mp4" "custom_time" 10
      (some 5) "top_right" 20 true (0.3 : ℚ) (0.1 : ℚ) false "high_quality" true 60 5
      (fun _ => false)) ≠ [] := by
  have hw : resolve_window "custom_time" 10 (some 5) 60 5 = (10, 5) := by
    simp [resolve_window]
    norm_num
  have hc : chooses_optimized true 10 5 60 = true := by
    simp only [chooses_optimized, use_optimization, Bool.and_eq_true, Bool.or_eq_true,
      decide_eq_true_eq, true_and]
    refine ⟨by norm_num, Or.inl (by norm_num)⟩
  simp only [apply_video_overlay_smart, hw, hc, if_true]
  exact ⟨rfl,
    opt_run_extractions_ne_nil "main.mp4" "ov.mp4" "out.mp4" 10 5 60 "top_right" 20 true
      (0.3 : ℚ) (0.1 : ℚ) false "high_quality" (fun _ => false),
    opt_run_files_ne_nil "main.mp4" "ov.mp4" "out.mp4" 10 5 60 "top_right" 20 true
      (0.3 : ℚ) (0.1 : ℚ) false "high_quality" (fun _ => false)⟩

/-- Claim C1 (amended): a resolved window with `end ≤ start` is not validated:
for any CustomRange request with `rangeEnd ≤ rangeStart ≤ mainDuration`, a
positive main duration, `rangeStart > 0.1` and optimization allowed, the engine
proceeds onto the Optimized path, attempts extraction and creates intermediate
files; no timing error is ever raised. -/
theorem c1_no_timing_validation (mv ov out pos q : String) (sz gs gb : ℚ) (rg k : Bool)
    (s e m od : ℚ) (fa : Stage → Bool)
    (hes : e ≤ s) (hem : e ≤ m) (hm : 0 < m) (hs : (0.1 : ℚ) < s) :
    plan_is_optimized (apply_video_overlay_smart mv ov out "custom_time" s (some e) pos sz rg
      gs gb k q true m od fa) = true ∧
    plan_extractions (apply_video_overlay_smart mv ov out "custom_time" s (some e) pos sz rg
      gs gb k q true m od fa) ≠ [] ∧
    plan_files (apply_video_overlay_smart mv ov out "custom_time" s (some e) pos sz rg
      gs gb k q true m od fa) ≠ [] := by
  have hw : resolve_window "custom_time" s (some e) m od = (s, e) := by
    simp [resolve_window, min_eq_left hem]
  have hc : chooses_optimized true s e m = true := by
    simp only [chooses_optimized, use_optimization, Bool.and_eq_true, Bool.or_eq_true,
      decide_eq_true_eq, true_and]
    exact ⟨by linarith, Or.inl hs⟩
  simp only [apply_video_overlay_smart, hw, hc, if_true]
  exact ⟨rfl, opt_run_extractions_ne_nil mv ov out s e m pos sz rg gs gb k q fa,
    opt_run_files_ne_nil mv ov out s e m pos sz rg gs gb k q fa⟩

/-- Witness for claim C1 (amended) at start 20, end 7, main duration 50. -/
theorem c1_no_timing_validation_witness :
    plan_is_optimized (apply_video_overlay_smart "a.mp4" "b.mp4" "c.mp4" "custom_time" 20
      (some 7) "center" 25 false (0.3 : ℚ) (0.1 : ℚ) true "fast" true 50 9
      (fun _ => false)) = true ∧
    plan_extractions (apply_video_overlay_smart "a.mp4" "b.mp4" "c.mp4" "custom_time" 20
      (some 7) "center" 25 false (0.3 : ℚ) (0.1 : ℚ) true "fast" true 50 9
      (fun _ => false)) ≠ [] ∧
    plan_files (apply_video_overlay_smart "a.mp4" "b.mp4" "c.mp4" "custom_time" 20
      (some 7) "center" 25 false (0.3 : ℚ) (0.1 : ℚ) true "fast" true 50 9
      (fun _ => false)) ≠ [] :=
  c1_no_timing_validation "a.mp4" "b.mp4" "c.mp4" "center" "fast" 25 (0.3 : ℚ) (0.1 : ℚ)
    false true 20 7 50 9 (fun _ => false) (by norm_num) (by norm_num) (by norm_num) (by norm_num)

/-- Claim C4: on the Optimized path the attempted stream-copy cuts are exactly:
a Before cut of `[0, start)` from the main asset iff `start > 0.1`; always one
Overlay-source cut `[start, end)` (seek `start`, duration `end - start`); and
an After cut `[end, ...)` (seek `end`, no duration bound) iff
`end < mainDuration - 0.1` — all lossless stream copies of the main asset. -/
theorem c4_optimized_extractions (mv ov out pos q : String) (sz gs gb : ℚ) (rg k : Bool)
    (s e m : ℚ) :
    (apply_overlay_optimized mv ov out s e m pos sz rg gs gb k q (fun _ => false)).extractions =
      (if s > (0.1 : ℚ) then
        [{ source := mv, seek := none, clip_duration := some s, dest := part_before,
           stream_copy := true }]
       else []) ++
      [{ source := mv, seek := some s, clip_duration := some (e - s),
         dest := part_overlay_input, stream_copy := true }] ++
      (if e < m - (0.1 : ℚ) then
        [{ source := mv, seek := some e, clip_duration := none, dest := part_after,
           stream_copy := true }]
       else []) := by
  unfold apply_overlay_optimized opt_after_stage opt_compose_stage opt_concat_stage opt_finish
  dsimp only
  simp only [Bool.false_eq_true, and_false, if_false]

/-- Claim C5: whenever an optimized-path run reaches the concatenation manifest,
the list handed to the concatenator is exactly
`[Before (iff start > 0.1), composed Overlay, After (iff end < mainDuration − 0.1)]`
in that order, and the raw Overlay-source intermediate never appears in it —
for every failure oracle. -/
theorem c5_concat_order (mv ov out : String) (s e m : ℚ) (pos : String) (sz : ℚ) (rg : Bool)
    (gs gb : ℚ) (k : Bool) (q : String) (fa : Stage → Bool) (l : List String)
    (h : (apply_overlay_optimized mv ov out s e m pos sz rg gs gb k q fa).manifest = some l) :
    l = (if s > (0.1 : ℚ) then [part_before] else []) ++ [part_overlay_output] ++
        (if e < m - (0.1 : ℚ) then [part_after] else []) ∧
    part_overlay_input ∉ l := by
  unfold apply_overlay_optimized opt_after_stage opt_compose_stage opt_concat_stage
    opt_finish at h
  dsimp only at h
  split_ifs at h ⊢ <;> dsimp only at h <;>
    first
      | exact Option.noConfusion h
      | (rw [Option.some.injEq] at h; subst h; exact ⟨rfl, by decide⟩)

/-- Witness for claim C5: a window `[10, 18)` of a 60s main video has both a
Before and an After segment; the manifest is exactly those three parts. -/
theorem c5_concat_order_witness :
    [part_before, part_overlay_output, part_after] =
      (if (10 : ℚ) > (0.1 : ℚ) then [part_before] else []) ++ [part_overlay_output] ++
        (if (18 : ℚ) < 60 - (0.1 : ℚ) then [part_after] else []) ∧
    part_overlay_input ∉ [part_before, part_overlay_output, part_after] :=
  c5_concat_order "a.mp4" "b.mp4" "c.mp4" 10 18 60 "top_left" 20 true (0.3 : ℚ) (0.1 : ℚ)
    false "fast" (fun _ => false) [part_before, part_overlay_output, part_after]
    (by
      unfold apply_overlay_optimized opt_after_stage opt_compose_stage opt_concat_stage
        opt_finish
      norm_num)

/-- Claim C6: on every optimized-path execution — success or failure at any
stage, and for any behavior of the best-effort deletions — the `finally` block
targets exactly the five workspace files; the caller's output path is never
among the deletion targets; every file the run can have created is the output
or a registered temp file; and when the deletions succeed, nothing but the
output remains. The cleanup itself is a total function, so its failures cannot
escalate. -/
theorem c6_workspace_cleanup (mv ov out : String) (s e m : ℚ) (pos : String) (sz : ℚ)
    (rg : Bool) (gs gb : ℚ) (k : Bool) (q : String) (fa : Stage → Bool)
    (delete_ok : String → Bool) (hout : out ∉ temp_files) :
    (apply_overlay_optimized mv ov out s e m pos sz rg gs gb k q fa).cleanup_targets =
      temp_files ∧
    out ∉ (apply_overlay_optimized mv ov out s e m pos sz rg gs gb k q fa).cleanup_targets ∧
    (∀ f ∈ (apply_overlay_optimized mv ov out s e m pos sz rg gs gb k q fa).files_created,
      f = out ∨ f ∈ temp_files) ∧
    ((∀ g, delete_ok g = true) →
      ∀ f ∈ run_cleanup
          (apply_overlay_optimized mv ov out s e m pos sz rg gs gb k q fa).files_created
          delete_ok, f = out) := by
  refine ⟨opt_run_cleanup_targets mv ov out s e m pos sz rg gs gb k q fa, ?_,
    opt_run_files_mem mv ov out s e m pos sz rg gs gb k q fa, ?_⟩
  · rw [opt_run_cleanup_targets mv ov out s e m pos sz rg gs gb k q fa]
    exact hout
  · intro hdel
    exact run_cleanup_spec _ delete_ok out
      (opt_run_files_mem mv ov out s e m pos sz rg gs gb k q fa) hdel

/-- Witness for claim C6 at a concrete request whose output path is distinct
from the temp names, with an all-success deletion oracle. -/
theorem c6_workspace_cleanup_witness :
    (apply_overlay_optimized "a.mp4" "b.mp4" "final.mp4" 10 18 60 "center" 20 false
        (0.3 : ℚ) (0.1 : ℚ) true "balanced" (fun _ => false)).cleanup_targets = temp_files ∧
    "final.mp4" ∉ (apply_overlay_optimized "a.mp4" "b.mp4" "final.mp4" 10 18 60 "center" 20
        false (0.3 : ℚ) (0.1 : ℚ) true "balanced" (fun _ => false)).cleanup_targets ∧
    (∀ f ∈ (apply_overlay_optimized "a.mp4" "b.mp4" "final.mp4" 10 18 60 "center" 20 false
        (0.3 : ℚ) (0.1 : ℚ) true "balanced" (fun _ => false)).files_created,
      f = "final.mp4" ∨ f ∈ temp_files) ∧
    ((∀ g, (fun _ => true : String → Bool) g = true) →
      ∀ f ∈ run_cleanup (apply_overlay_optimized "a.mp4" "b.mp4" "final.mp4" 10 18 60 "center"
          20 false (0.3 : ℚ) (0.1 : ℚ) true "balanced" (fun _ => false)).files_created
          (fun _ => true), f = "final.mp4") :=
  c6_workspace_cleanup "a.mp4" "b.mp4" "final.mp4" 10 18 60 "center" 20 false (0.3 : ℚ)
    (0.1 : ℚ) true "balanced" (fun _ => false) (fun _ => true) (by decide)

/-- Claim C7 counterexample: with `keepOverlayAudio = true` the produced encoding
command does not mix the two audio tracks: a full concrete command contains no
`amix`/`amerge` filter and no reference to the overlay input's audio stream
(`1:a`), and its audio arguments are only a fixed-bitrate re-encode with no
mapping at all — contradicting the claim that this flag mixes main and overlay
audio into the output. -/
theorem c7_counterexample :
    mentions_overlay_audio (encode_cmd "seg.mp4" "ov.mp4" "o.mp4"
      { scale_factor := 1, remove_green := true, green_similarity := 0, green_blend := 0,
        overlay_position := "main_w-overlay_w-10:10", gate_start := 0, gate_end := 8 }
      "high_quality" true) = false ∧
    audio_args true = ["-c:a", "aac", "-b:a", "320k"] := by
  exact ⟨by decide, rfl⟩

/-- Claim C7 (amended): with `keepOverlayAudio = true` the command performs no
mixing: it merely omits the explicit audio map (falling back to the encoder's
default stream selection) and re-encodes audio at the fixed 320k bitrate; with
`keepOverlayAudio = false` it maps only the main asset's audio (`-map 0:a?`) at
the same fixed bitrate. In both cases the audio arguments never reference the
overlay's audio, both composition paths build their command as the video
arguments followed by exactly these audio arguments, and the optimized path
hands exactly them to its per-segment composition. -/
theorem c7_audio_handling :
    audio_args true = ["-c:a", "aac", "-b:a", "320k"] ∧
    audio_args false = ["-map", "0:a?", "-c:a", "aac", "-b:a", "320k"] ∧
    (∀ k : Bool, mentions_overlay_audio (audio_args k) = false) ∧
    (∀ (inp ov out : String) (f : SegmentFilter) (q : String) (k : Bool),
      encode_cmd inp ov out f q k = encode_video_args inp ov f q ++ audio_args k ++ [out]) ∧
    (∀ (mv ov out : String) (s e m : ℚ) (pos : String) (sz : ℚ) (rg : Bool) (gs gb : ℚ)
       (k : Bool) (q : String),
      (apply_overlay_optimized mv ov out s e m pos sz rg gs gb k q
        (fun _ => false)).compose_audio = some (audio_args k)) := by
  refine ⟨rfl, rfl, ?_, fun _ _ _ _ _ _ => rfl, ?_⟩
  · intro k
    cases k <;> decide
  · intro mv ov out s e m pos sz rg gs gb k q
    unfold apply_overlay_optimized opt_after_stage opt_compose_stage opt_concat_stage opt_finish
    dsimp only
    simp only [Bool.false_eq_true, and_false, if_false]

/-- Claim C8 counterexample: the compositor's anchor table has exactly five named
positions — the four corners and center — not nine: the edge anchors are
absent, so an edge position such as "top_center" has no binding and falls back
to the same default offset as an arbitrary unknown string. -/
theorem c8_counterexample :
    position_table.map Prod.fst =
      ["top_left", "top_right", "bottom_left", "bottom_right", "center"] ∧
    (position_table.map Prod.fst).length = 5 ∧
    position_table.lookup "top_center" = none ∧
    resolve_position "top_center" = "10:10" ∧
    resolve_position "middle_left" = resolve_position "not_an_anchor" := by
  exact ⟨rfl, rfl, rfl, rfl, rfl⟩

/-- Claim C8 (amended): position resolution knows five named anchors: the four
corners map to pixel-offset expressions with a fixed 10px margin from the
nearest edges, center has no margin, and every other position value (including
the edge anchors) falls back to the top-left offset `10:10`. -/
theorem c8_position_resolution :
    resolve_position "top_left" = "10:10" ∧
    resolve_position "top_right" = "main_w-overlay_w-10:10" ∧
    resolve_position "bottom_left" = "10:main_h-overlay_h-10" ∧
    resolve_position "bottom_right" = "main_w-overlay_w-10:main_h-overlay_h-10" ∧
    resolve_position "center" = "(main_w-overlay_w)/2:(main_h-overlay_h)/2" ∧
    (∀ p : String, p ∉ ["top_left", "top_right", "bottom_left", "bottom_right", "center"] →
      resolve_position p = "10:10") := by
  refine ⟨rfl, rfl, rfl, rfl, rfl, ?_⟩
  intro p hp
  simp only [List.mem_cons, List.not_mem_nil, or_false, not_or] at hp
  obtain ⟨h1, h2, h3, h4, h5⟩ := hp
  simp [resolve_position, position_table, List.lookup, beq_eq_false_iff_ne.mpr h1,
    beq_eq_false_iff_ne.mpr h2, beq_eq_false_iff_ne.mpr h3, beq_eq_false_iff_ne.mpr h4,
    beq_eq_false_iff_ne.mpr h5]

/-- Witness for claim C8 (amended): an edge anchor resolves to the default. -/
theorem c8_position_resolution_witness : resolve_position "bottom_center" = "10:10" :=
  c8_position_resolution.2.2.2.2.2 "bottom_center" (by decide)

/-- Claim C9: the temporal visibility gate of the compositor spans
`(0, segmentDuration)` — the segment's own local timeline — when compositing
onto an Optimized-path segment, whereas the Standard path's filter gates on
`(start, end)` in the main asset's own timeline. -/
theorem c9_temporal_gate (mv ov out : String) (s e m : ℚ) (pos : String) (sz : ℚ) (rg : Bool)
    (gs gb : ℚ) (k : Bool) (q : String) :
    ((apply_overlay_optimized mv ov out s e m pos sz rg gs gb k q
        (fun _ => false)).compose_filter = some (build_filter pos sz rg gs gb 0 (e - s))) ∧
    (∀ (tm : String) (eo : Option ℚ) (opt : Bool) (od : ℚ) (fa : Stage → Bool),
      plan_is_optimized (apply_video_overlay_smart mv ov out tm s eo pos sz rg gs gb k q opt m
        od fa) = false →
      plan_filter (apply_video_overlay_smart mv ov out tm s eo pos sz rg gs gb k q opt m od
          fa) =
        some (build_filter pos sz rg gs gb (resolve_window tm s eo m od).1
          (resolve_window tm s eo m od).2)) := by
  constructor
  · unfold apply_overlay_optimized opt_after_stage opt_compose_stage opt_concat_stage opt_finish
    dsimp only
    simp only [Bool.false_eq_true, and_false, if_false]
  · intro tm eo opt od fa h
    rw [plan_smart_eq_chooses] at h
    unfold apply_video_overlay_smart
    dsimp only
    rw [if_neg]
    · rfl
    · simp [h]

/-- Witness for claim C9: optimized gate `(0, 18 − 10)` for window `[10, 18)`;
standard gate equal to the resolved full-duration window of the main timeline. -/
theorem c9_temporal_gate_witness :
    ((apply_overlay_optimized "a.mp4" "b.mp4" "c.mp4" 10 18 60 "top_left" 20 true (0.3 : ℚ)
        (0.1 : ℚ) false "fast" (fun _ => false)).compose_filter =
      some (build_filter "top_left" 20 true (0.3 : ℚ) (0.1 : ℚ) 0 (18 - 10))) ∧
    plan_filter (apply_video_overlay_smart "a.mp4" "b.mp4" "c.mp4" "full_duration" 10 none
        "top_left" 20 true (0.3 : ℚ) (0.1 : ℚ) false "fast" true 60 8 (fun _ => false)) =
      some (build_filter "top_left" 20 true (0.3 : ℚ) (0.1 : ℚ)
        (resolve_window "full_duration" 10 none 60 8).1
        (resolve_window "full_duration" 10 none 60 8).2) :=
  ⟨(c9_temporal_gate "a.mp4" "b.mp4" "c.mp4" 10 18 60 "top_left" 20 true (0.3 : ℚ) (0.1 : ℚ)
      false "fast").1,
   (c9_temporal_gate "a.mp4" "b.mp4" "c.mp4" 10 18 60 "top_left" 20 true (0.3 : ℚ) (0.1 : ℚ)
      false "fast").2 "full_duration" none true 8 (fun _ => false)
     (by
       rw [plan_smart_eq_chooses]
       simp [chooses_optimized, use_optimization, resolve_window, decide_eq_false_iff_not]
       norm_num)⟩

/-- Claim C10: the legacy entry point returns exactly what
`apply_video_overlay_smart` returns on the same arguments with `optimize=True`,
translating the legacy timing mode "range" to "custom_time", "original" to
"overlay_duration", and any other value to "custom_time". -/
theorem c10_legacy_delegation :
    ∀ (mv ov out : String) (s : ℚ) (eo : Option ℚ) (pos : String) (sz : ℚ) (rg : Bool)
      (gs gb : ℚ) (k : Bool) (q : String) (m od : ℚ) (fa : Stage → Bool),
      (apply_video_overlay mv ov out "range" s eo pos sz rg gs gb k q m od fa =
        apply_video_overlay_smart mv ov out "custom_time" s eo pos sz rg gs gb k q true m od
          fa) ∧
      (apply_video_overlay mv ov out "original" s eo pos sz rg gs gb k q m od fa =
        apply_video_overlay_smart mv ov out "overlay_duration" s eo pos sz rg gs gb k q true m od
          fa) ∧
      (∀ mode : String, mode ≠ "range" → mode ≠ "original" →
        apply_video_overlay mv ov out mode s eo pos sz rg gs gb k q m od fa =
          apply_video_overlay_smart mv ov out "custom_time" s eo pos sz rg gs gb k q true m od
            fa) := by
  intros
  refine ⟨by simp [apply_video_overlay], by simp [apply_video_overlay], ?_⟩
  intro mode h1 h2
  simp [apply_video_overlay, h1, h2]

/-- Witness for claim C10: the three translation cases at concrete inputs,
including an unrecognized mode falling back to "custom_time". -/
theorem c10_legacy_delegation_witness :
    apply_video_overlay "m.mp4" "o.mp4" "out.mp4" "legacy_mode" 3 none "top_left" 20 true
        (0.3 : ℚ) (0.1 : ℚ) false "fast" 60 8 (fun _ => false) =
      apply_video_overlay_smart "m.mp4" "o.mp4" "out.mp4" "custom_time" 3 none "top_left" 20 true
        (0.3 : ℚ) (0.1 : ℚ) false "fast" true 60 8 (fun _ => false) :=
  (c10_legacy_delegation "m.mp4" "o.mp4" "out.mp4" 3 none "top_left" 20 true (0.3 : ℚ) (0.1 : ℚ)
    false "fast" 60 8 (fun _ => false)).2.2 "legacy_mode" (by decide) (by decide)

end VideoOverlay
